import Mathlib

/-!
A shallow embedding of the dependency-injection core of scrapy-poet
(`src/scrapy_poet/utils.py` and `src/scrapy_poet/autoextract/providers.py`).

Python classes are represented by numeric codes (`Ty`).  The behaviour of the
Python runtime that the code calls into (`issubclass`, `web_poet.is_injectable`,
`inspect.signature` of constructors, plain `cls(**kwargs)` construction, and the
`to_item` page-object method) is packaged in an `Env` record: the repository's
functions are translated over an arbitrary such environment.  Fallible Python
code (raised exceptions) is translated with `Except`.

The planning library `andi` is external to the repository; its `andi.plan` is
modelled from the specification's Plan Builder description (see `planParams`).
-/

namespace SPoet

/-- A Python class, identified by a numeric code. -/
abbrev Ty := Nat

/-- A Python runtime object (opaque to the engine beyond identity). -/
abbrev Value := Nat

/-- Code for `scrapy.Spider`. -/
def SpiderTy : Ty := 0
/-- Code for `scrapy.http.Request`. -/
def RequestTy : Ty := 1
/-- Code for `scrapy.http.Response`. -/
def ResponseTy : Ty := 2
/-- Code for `scrapy.crawler.Crawler`. -/
def CrawlerTy : Ty := 3
/-- Code for `scrapy.settings.Settings`. -/
def SettingsTy : Ty := 4
/-- Code for `scrapy.statscollectors.StatsCollector`. -/
def StatsCollectorTy : Ty := 5
/-- Code for `scrapy_poet.utils.DummyResponse` (declared in utils.py as a
subclass of `Response`). -/
def DummyResponseTy : Ty := 6
/-- Code for `web_poet.pages.ItemPage`. -/
def ItemPageTy : Ty := 7

/-- `_SCRAPY_PROVIDED_CLASSES` from utils.py. -/
def SCRAPY_PROVIDED_CLASSES : List Ty :=
  [SpiderTy, RequestTy, ResponseTy, CrawlerTy, SettingsTy, StatsCollectorTy]

/-- Exceptions that the embedded code can raise. -/
inductive Err where
  /-- `StopIteration` from `next(iter(...))` on an empty parameter mapping. -/
  | stopIteration
  /-- `TypeError` from `set.union()` applied to zero sets. -/
  | setUnionEmpty
  /-- `andi.errors.NonProvidableError` (unsatisfiable dependency). -/
  | nonProvidable
  /-- Planner recursion limit reached (models andi's cyclic-dependency error). -/
  | depthExceeded
  /-- `KeyError` from a dict lookup of a missing class. -/
  | keyError
  /-- `TypeError` raised by `callback_for` for a non-`ItemPage` argument. -/
  | typeError
  /-- `NotImplementedError` raised by `callback_for` for an abstract `to_item`. -/
  | notImplementedError
  /-- `TypeError` from invoking a callable with a positional argument its
  signature does not accept (`__call__(self)` given `provided_classes`). -/
  | typeErrorCall
  /-- An exception raised by a provider invocation, carrying its identity
  so that re-raising preserves the original exception. -/
  | exn (e : Nat)
deriving DecidableEq

/-- One declared parameter of a Python callable, as seen by
`inspect.signature`: its name, whether `str(param)` starts with `*`
(star-args), and its type annotation if any. -/
structure Param where
  name : String
  isStar : Bool
  ann : Option Ty
deriving DecidableEq

/-- A Python callable as the analyzer sees it: whether the
`__scrapy_poet_callback` marker attribute is `True`, and its signature. -/
structure Callback where
  marker : Bool
  params : List Param
deriving DecidableEq

/-- The fixed parts of the Python runtime that utils.py calls into. -/
structure Env where
  /-- `issubclass` on class codes. -/
  issub : Ty → Ty → Bool
  /-- `web_poet.pages.is_injectable`. -/
  injectable : Ty → Bool
  /-- Constructor signature of a class: `(name, annotation)` per parameter,
  `self` excluded, as `andi` reads it via `inspect`. -/
  init_params : Ty → List (String × Option Ty)
  /-- Plain construction `cls(**kwargs)` used for the remaining plan entries. -/
  construct : Ty → List (String × Value) → Value
  /-- Whether `cls.to_item` still carries `__isabstractmethod__`. -/
  to_item_isabstract : Ty → Bool
  /-- The `to_item` page-object method of a class, on a built page instance. -/
  to_item : Ty → Value → Value

/-- Scrapy stats (`StatsCollector`): a string-keyed counter map. -/
abbrev Stats := String → Nat

/-- `stats.inc_value(key)`. -/
def statsInc (s : Stats) (k : String) : Stats :=
  fun k' => if k' = k then s k' + 1 else s k'

/-- A page-object input provider registration: the provider class itself, the
set of classes it advertises through `provided_classes`, and the runtime
behaviour of invoking a built provider instance (constructor kwargs, current
stats, requested classes ↦ updated stats and either the produced instances or
a raised exception). -/
structure Provider where
  cls : Ty
  provided_classes : List Ty
  call : List (String × Value) → Stats → List Ty → Stats × Except Err (List (Ty × Value))

/-- `get_provided_classes_from_providers` builds the generator of
`provided_classes` sets and applies `set.union(*...)`; with zero providers
`set.union()` raises `TypeError`. -/
def union_provided : List Provider → List Ty
  | [] => []
  | p :: rest => p.provided_classes ++ union_provided rest

/-- utils.py `get_provided_classes_from_providers`. -/
def get_provided_classes_from_providers (providers : List Provider) :
    Except Err (List Ty) :=
  match providers with
  | [] => .error .setUnionEmpty
  | _ :: _ => .ok (union_provided providers)

/-- The incoming `scrapy.Request`, reduced to the field utils.py reads. -/
structure Req where
  callback : Option Callback

/-- The spider, reduced to the fields utils.py reads: its `parse` method and
the `SCRAPY_POET_PROVIDERS` setting. -/
structure Spider where
  parse : Callback
  poet_providers : List Provider

/-- utils.py `get_callback`. -/
def get_callback (r : Req) (s : Spider) : Callback :=
  match r.callback with
  | none => s.parse
  | some cb => cb

/-- utils.py `is_callback_using_response`.  The marker check happens before
signature inspection; `next(iter(signature.parameters))` raises
`StopIteration` when the callable declares no parameters; otherwise only the
first parameter is examined. -/
def is_callback_using_response (env : Env) (cb : Callback) : Except Err Bool :=
  if cb.marker then .ok false
  else
    match cb.params with
    | [] => .error .stopIteration
    | p :: _ =>
      if p.isStar then .ok true
      else
        match p.ann with
        | none => .ok true
        | some t => if env.issub t DummyResponseTy then .ok false else .ok true

/-- The kwargs spec of one plan entry: parameter name ↦ the class whose built
instance fills it. -/
structure KwargsSpec where
  kwargs : List (String × Ty)
deriving DecidableEq

/-- Modelled from the spec: §4.2 Plan Builder — the recursive resolution core
of the external `andi.plan` library call.  Resolves a list of declared
parameters against `external` (externally provided classes, preferred) and
injectable classes (recursively planned through their constructors), and
accumulates dedup'd plan entries in dependency-first order.  `full` mirrors
andi's `full_final_kwargs`: when false, an unresolvable root parameter is
dropped from the kwargs instead of raising; dependency resolution inside an
injectable class is always full.  Fuel exhaustion models andi's
cyclic-dependency failure. -/
def planParams (env : Env) (external : List Ty) :
    Nat → Bool → List (String × Option Ty) → List (Ty × KwargsSpec) →
    Except Err (List (Ty × KwargsSpec) × List (String × Ty))
  | 0, _, _, _ => .error .depthExceeded
  | _ + 1, _, [], acc => .ok (acc, [])
  | fuel + 1, full, (nm, o) :: rest, acc =>
    match o with
    | none =>
      if full then .error .nonProvidable
      else planParams env external fuel full rest acc
    | some t =>
      if t ∈ acc.map Prod.fst then
        match planParams env external fuel full rest acc with
        | .error e => .error e
        | .ok (entries, kws) => .ok (entries, (nm, t) :: kws)
      else if t ∈ external then
        match planParams env external fuel full rest (acc ++ [(t, ⟨[]⟩)]) with
        | .error e => .error e
        | .ok (entries, kws) => .ok (entries, (nm, t) :: kws)
      else if env.injectable t then
        match planParams env external fuel true (env.init_params t) acc with
        | .error e => .error e
        | .ok (entries1, kws1) =>
          match planParams env external fuel full rest
              (entries1 ++ [(t, ⟨kws1⟩)]) with
          | .error e => .error e
          | .ok (entries, kws) => .ok (entries, (nm, t) :: kws)
      else
        if full then .error .nonProvidable
        else planParams env external fuel full rest acc

/-- An `andi.Plan`: its last element is the root callable itself with the
root's kwargs spec (`final`); `entries` are the remaining elements, i.e.
andi's `plan.dependencies`.  `rootCls` is the root when it is a class (plans
built for provider classes); it is `none` for function roots, which never
match the class-membership and subclass tests the loops below apply. -/
structure Plan where
  entries : List (Ty × KwargsSpec)
  final : KwargsSpec
  rootCls : Option Ty
deriving DecidableEq

/-- Modelled from the spec: §4.2 — the external `andi.plan` entry point over
an already-inspected root signature. -/
def andi_plan (env : Env) (external : List Ty) (fuel : Nat) (full : Bool)
    (rootParams : List (String × Option Ty)) (rootCls : Option Ty) :
    Except Err Plan :=
  match planParams env external fuel full rootParams [] with
  | .error e => .error e
  | .ok (entries, kws) => .ok ⟨entries, ⟨kws⟩, rootCls⟩

/-- The classes iterated by `for possible_type, _ in plan`: all dependency
entries followed by the root when the root is a class. -/
def plan_classes (p : Plan) : List Ty :=
  p.entries.map Prod.fst ++ p.rootCls.toList

/-- The parameters `andi` reads from a callback signature: star parameters
(`*args` / `**kwargs`) cannot be provided and are skipped. -/
def andi_params : List Param → List (String × Option Ty)
  | [] => []
  | p :: rest =>
    if p.isStar then andi_params rest else (p.name, p.ann) :: andi_params rest

/-- The loop of `is_provider_using_response`: does any planned class satisfy
`issubclass(possible_type, Response)`? -/
def any_response_subclass (env : Env) : List Ty → Bool
  | [] => false
  | t :: rest =>
    if env.issub t ResponseTy then true else any_response_subclass env rest

/-- utils.py `is_provider_using_response`: plan the provider class against
`_SCRAPY_PROVIDED_CLASSES` and scan the plan for a `Response` subclass. -/
def is_provider_using_response (env : Env) (fuel : Nat) (p : Provider) :
    Except Err Bool :=
  match andi_plan env SCRAPY_PROVIDED_CLASSES fuel false
      (env.init_params p.cls) (some p.cls) with
  | .error e => .error e
  | .ok plan => .ok (any_response_subclass env (plan_classes plan))

/-- Does some planned class belong to this provider's `provided_classes`? -/
def touches (classes : List Ty) (p : Provider) : Bool :=
  match classes with
  | [] => false
  | c :: rest => if c ∈ p.provided_classes then true else touches rest p

/-- The set comprehension of `discover_callback_providers`: the providers
whose `provided_classes` meet the plan. -/
def select_providers (providers : List Provider) (classes : List Ty) :
    List Provider :=
  match providers with
  | [] => []
  | p :: rest =>
    if touches classes p then p :: select_providers rest classes
    else select_providers rest classes

/-- utils.py `discover_callback_providers`. -/
def discover_callback_providers (env : Env) (fuel : Nat) (cb : Callback)
    (providers : List Provider) : Except Err (List Provider) :=
  match get_provided_classes_from_providers providers with
  | .error e => .error e
  | .ok ext =>
    match andi_plan env ext fuel false (andi_params cb.params) none with
    | .error e => .error e
    | .ok plan => .ok (select_providers providers (plan_classes plan))

/-- The provider loop of `is_response_going_to_be_used`: return `True` at the
first provider whose own plan uses a `Response`; exceptions propagate. -/
def any_provider_using_response (env : Env) (fuel : Nat) :
    List Provider → Except Err Bool
  | [] => .ok false
  | p :: rest =>
    match is_provider_using_response env fuel p with
    | .error e => .error e
    | .ok true => .ok true
    | .ok false => any_provider_using_response env fuel rest

/-- utils.py `is_response_going_to_be_used`. -/
def is_response_going_to_be_used (env : Env) (fuel : Nat) (r : Req)
    (s : Spider) : Except Err Bool :=
  match is_callback_using_response env (get_callback r s) with
  | .error e => .error e
  | .ok true => .ok true
  | .ok false =>
    match discover_callback_providers env fuel (get_callback r s)
        s.poet_providers with
    | .error e => .error e
    | .ok ds => any_provider_using_response env fuel ds

/-- utils.py `build_plan`. -/
def build_plan (env : Env) (fuel : Nat) (cb : Callback)
    (providers : List Provider) : Except Err Plan :=
  match get_provided_classes_from_providers providers with
  | .error e => .error e
  | .ok ext => andi_plan env ext fuel false (andi_params cb.params) none

/-- Keys of an instance dict. -/
def dkeys (d : List (Ty × Value)) : List Ty := d.map Prod.fst

/-- Dict lookup by class. -/
def dlookup : List (Ty × Value) → Ty → Option Value
  | [], _ => none
  | (k, v) :: rest, t => if k = t then some v else dlookup rest t

/-- andi's `kwargs_spec.kwargs(instances)` / `plan.final_kwargs(instances)`:
look each declared class up in the dict; a missing class is a `KeyError`. -/
def kwargsFrom (d : List (Ty × Value)) :
    List (String × Ty) → Except Err (List (String × Value))
  | [] => .ok []
  | (nm, t) :: rest =>
    match dlookup d t with
    | none => .error .keyError
    | some v =>
      match kwargsFrom d rest with
      | .error e => .error e
      | .ok kvs => .ok ((nm, v) :: kvs)

/-- A constructed provider instance: the provider and the kwargs its
constructor received. -/
structure ProviderInstance where
  prov : Provider
  kwargs : List (String × Value)

/-- utils.py `build_provider`: plan the provider class with
`externally_provided = external_dependencies.keys()` and
`full_final_kwargs=True`, then bind the final kwargs from
`external_dependencies` alone. -/
def build_provider (env : Env) (fuel : Nat) (p : Provider)
    (external_dependencies : List (Ty × Value)) :
    Except Err ProviderInstance :=
  match andi_plan env (dkeys external_dependencies) fuel true
      (env.init_params p.cls) (some p.cls) with
  | .error e => .error e
  | .ok plan =>
    match kwargsFrom external_dependencies plan.final.kwargs with
    | .error e => .error e
    | .ok kw => .ok ⟨p, kw⟩

/-- Modelled from the spec: §4.4 step 3 — "construct the provider using
already-built dependency instances plus external values".  Identical to
`build_provider` except that the already-built instance map is added to the
values available for construction.  Stated only to compare the code's
`build_provider` against the specified behaviour. -/
def build_provider_spec (env : Env) (fuel : Nat) (p : Provider)
    (external_dependencies instances : List (Ty × Value)) :
    Except Err ProviderInstance :=
  match andi_plan env (dkeys (external_dependencies ++ instances)) fuel true
      (env.init_params p.cls) (some p.cls) with
  | .error e => .error e
  | .ok plan =>
    match kwargsFrom (external_dependencies ++ instances) plan.final.kwargs with
    | .error e => .error e
    | .ok kw => .ok ⟨p, kw⟩

/-- `dependencies_set & provider.provided_classes - instances.keys()` from
`build_instances`, computed over the plan's dependency classes. -/
def provided_for (p : Provider) (built : List Ty) : List Ty → List Ty
  | [] => []
  | c :: rest =>
    if c ∈ p.provided_classes ∧ c ∉ built then c :: provided_for p built rest
    else provided_for p built rest

/-- Entries of `d` whose keys are not in `ks`. -/
def removeKeys : List (Ty × Value) → List Ty → List (Ty × Value)
  | [], _ => []
  | (k, v) :: rest, ks =>
    if k ∈ ks then removeKeys rest ks else (k, v) :: removeKeys rest ks

/-- Python `instances.update(results)`. -/
def dictUpdate (d results : List (Ty × Value)) : List (Ty × Value) :=
  removeKeys d (results.map Prod.fst) ++ results

/-- The provider loop of `build_instances`: for each registered provider, the
still-missing classes it provides; if any, construct the provider from the
external dependencies, invoke it, and merge its results.  A raised exception
aborts the loop immediately. -/
def run_providers (env : Env) (fuel : Nat)
    (external_dependencies : List (Ty × Value)) (depSet : List Ty) :
    List Provider → List (Ty × Value) → Stats →
    Stats × Except Err (List (Ty × Value))
  | [], instances, stats => (stats, .ok instances)
  | p :: rest, instances, stats =>
    match provided_for p (dkeys instances) depSet with
    | [] => run_providers env fuel external_dependencies depSet rest instances stats
    | c :: cs =>
      match build_provider env fuel p external_dependencies with
      | .error e => (stats, .error e)
      | .ok pi =>
        match pi.prov.call pi.kwargs stats (c :: cs) with
        | (stats', .error e) => (stats', .error e)
        | (stats', .ok results) =>
          run_providers env fuel external_dependencies depSet rest
            (dictUpdate instances results) stats'

/-- The remaining-dependencies loop of `build_instances`: classes not already
built are constructed directly with kwargs bound from the instance map. -/
def build_remaining (env : Env) :
    List (Ty × KwargsSpec) → List (Ty × Value) →
    Except Err (List (Ty × Value))
  | [], instances => .ok instances
  | (c, spec) :: rest, instances =>
    if c ∈ dkeys instances then build_remaining env rest instances
    else
      match kwargsFrom instances spec.kwargs with
      | .error e => .error e
      | .ok kw =>
        build_remaining env rest (instances ++ [(c, env.construct c kw)])

/-- utils.py `build_instances`.  The scrapy stats object is threaded through
explicitly since provider invocations increment counters on it. -/
def build_instances (env : Env) (fuel : Nat) (plan : Plan)
    (providers : List Provider) (external_dependencies : List (Ty × Value))
    (stats : Stats) : Stats × Except Err (List (Ty × Value)) :=
  match run_providers env fuel external_dependencies
      (plan.entries.map Prod.fst) providers [] stats with
  | (stats', .error e) => (stats', .error e)
  | (stats', .ok instances) =>
    match build_remaining env plan.entries instances with
    | .error e => (stats', .error e)
    | .ok m => (stats', .ok m)

/-- The callable returned by `callback_for`: it carries the
`__scrapy_poet_callback` marker, remembers the page class, and its body
`yield page.to_item()` is the single-element list of yields. -/
structure MaterializedCallback where
  marker : Bool
  page_cls : Ty
  run : Value → List Value

/-- utils.py `callback_for`: validate the class, then return the generated
`parse` callable. -/
def callback_for (env : Env) (page_cls : Ty) :
    Except Err MaterializedCallback :=
  if env.issub page_cls ItemPageTy = false then .error .typeError
  else if env.to_item_isabstract page_cls = true then .error .notImplementedError
  else .ok ⟨true, page_cls, fun page => [env.to_item page_cls page]⟩

/-- The stats key `f"autoextract/PT/KIND"` used by the autoextract provider. -/
def statKey (pt kind : String) : String :=
  "autoextract/" ++ pt ++ "/" ++ kind

/-- The body of `Provider.__call__` from
`src/scrapy_poet/autoextract/providers.py`, per its own signature
`async def __call__(self)`: it takes no call-time arguments.  It increments
the per-page-type `total` counter, performs the external `request_raw` fetch
(its outcome is the `fetch` argument), increments `error` and re-raises on
failure, and otherwise increments `success` and returns the single bare
instance `self.provided_class(data=data)` — not a class-to-instance
mapping. -/
def autoextract_dunder_call (pt : String) (fetch : Except Nat Value)
    (mkInstance : Value → Value) (stats : Stats) :
    Stats × Except Err Value :=
  let s1 := statsInc stats (statKey pt "total")
  match fetch with
  | .error e => (statsInc s1 (statKey pt "error"), .error (.exn e))
  | .ok data => (statsInc s1 (statKey pt "success"), .ok (mkInstance data))

/-- An autoextract provider instance as `build_instances` actually invokes
it: utils.py passes one positional argument,
`provider_instance(provided_classes)`, which the zero-parameter
`Provider.__call__(self)` does not accept — Python raises `TypeError` at the
call itself, so the method body (`autoextract_dunder_call`) never runs, no
counter is touched and no fetch is attempted, whatever the fetch outcome
would have been. -/
def autoextract_call (_pt : String) (_fetch : Except Nat Value)
    (_mkInstance : Value → Value) :
    List (String × Value) → Stats → List Ty →
    Stats × Except Err (List (Ty × Value)) :=
  fun _kwargs stats _classes => (stats, .error .typeErrorCall)

/-! Concrete environments and inputs used to evaluate the definitions. -/

/-- A concrete runtime environment: `issubclass` holds on equal classes and
for `DummyResponse ≤ Response` (the hierarchy declared in utils.py); nothing
is injectable; constructors take no parameters. -/
def envA : Env where
  issub := fun a b => a == b || (a == DummyResponseTy && b == ResponseTy)
  injectable := fun _ => false
  init_params := fun _ => []
  construct := fun _ _ => 0
  to_item_isabstract := fun _ => false
  to_item := fun _ v => v + 1

/-- A concrete environment for the build scenarios: class 21 is a provider
class whose constructor wants an instance of capability class 10. -/
def envB : Env where
  issub := fun a b => a == b
  injectable := fun _ => false
  init_params := fun c => if c = 21 then [("a", some 10)] else []
  construct := fun _ _ => 0
  to_item_isabstract := fun _ => false
  to_item := fun _ v => v

/-- A concrete environment for the autoextract scenario: provider class 50
declares the `(request, stats)` constructor of the autoextract providers. -/
def envC : Env where
  issub := fun a b => a == b
  injectable := fun _ => false
  init_params := fun c =>
    if c = 50 then [("request", some RequestTy), ("stats", some StatsCollectorTy)]
    else []
  construct := fun _ _ => 0
  to_item_isabstract := fun _ => false
  to_item := fun _ v => v

/-- All-zero stats. -/
def stats0 : Stats := fun _ => 0

/-- An unmarked callback whose first parameter is annotated `DummyResponse`
but whose second parameter is annotated `Response`. -/
def cbC2a : Callback :=
  ⟨false, [⟨"response", false, some DummyResponseTy⟩, ⟨"r2", false, some ResponseTy⟩]⟩

/-- An unmarked callback whose first parameter is annotated `DummyResponse`
and whose second parameter has no annotation. -/
def cbC2b : Callback :=
  ⟨false, [⟨"response", false, some DummyResponseTy⟩, ⟨"x", false, none⟩]⟩

/-- An unmarked callback whose first parameter is annotated `Response` and
whose second parameter is annotated `DummyResponse`. -/
def cbC2c : Callback :=
  ⟨false, [⟨"response", false, some ResponseTy⟩, ⟨"d", false, some DummyResponseTy⟩]⟩

/-- An unmarked callback with a single untyped parameter. -/
def cbUntyped : Callback := ⟨false, [⟨"response", false, none⟩]⟩

/-- A provider of capability class 10 whose invocation needs nothing and
touches no counters. -/
def provA : Provider := ⟨20, [10], fun _ s _ => (s, .ok [(10, 100)])⟩

/-- A provider of capability class 11 whose provider class 21 requires an
instance of class 10 at construction time. -/
def provB : Provider := ⟨21, [11], fun _ s _ => (s, .ok [(11, 200)])⟩

/-- A plan whose dependencies are capability classes 10 and 11. -/
def planAB : Plan := ⟨[(10, ⟨[]⟩), (11, ⟨[]⟩)], ⟨[]⟩, none⟩

/-- A plan whose single dependency is capability class 10. -/
def planA : Plan := ⟨[(10, ⟨[]⟩)], ⟨[]⟩, none⟩

/-- External dependencies supplying only the request object. -/
def extReq : List (Ty × Value) := [(RequestTy, 0)]

/-- First of two providers claiming capability class 10; its invocation bumps
counter "A" and records instance 111. -/
def provDup1 : Provider :=
  ⟨40, [10], fun _ s _ => (statsInc s "A", .ok [(10, 111)])⟩

/-- Second of two providers claiming capability class 10; its invocation
bumps counter "B" and records instance 222. -/
def provDup2 : Provider :=
  ⟨41, [10], fun _ s _ => (statsInc s "B", .ok [(10, 222)])⟩

/-- A batch provider producing capability classes 30 and 31 in one call. -/
def provBatch : Provider :=
  ⟨42, [30, 31], fun _ s _ => (s, .ok [(30, 7), (31, 8)])⟩

/-- A plan whose dependencies are capability classes 30 and 31. -/
def planBatch : Plan := ⟨[(30, ⟨[]⟩), (31, ⟨[]⟩)], ⟨[]⟩, none⟩

/-! Helper lemmas. -/

theorem string_append_right_cancel (s a b : String) (h : s ++ a = s ++ b) :
    a = b := by
  cases s with
  | mk sd =>
    cases a with
    | mk ad =>
      cases b with
      | mk bd =>
        apply congrArg String.mk
        exact List.append_cancel_left (congrArg String.data h)

theorem statKey_ne (pt a b : String) (hab : a ≠ b) :
    statKey pt a ≠ statKey pt b := by
  intro h
  exact hab (string_append_right_cancel ("autoextract/" ++ pt ++ "/") a b h)

theorem any_provider_false_iff (env : Env) (fuel : Nat) (l : List Provider) :
    any_provider_using_response env fuel l = .ok false ↔
      ∀ p ∈ l, is_provider_using_response env fuel p = .ok false := by
  induction l with
  | nil => simp [any_provider_using_response]
  | cons p rest ih =>
    simp only [any_provider_using_response, List.forall_mem_cons]
    cases hp : is_provider_using_response env fuel p with
    | error e => simp [hp]
    | ok b =>
      cases b with
      | true => simp [hp]
      | false => simp [hp, ih]

theorem any_provider_true_of_exists (env : Env) (fuel : Nat)
    (l : List Provider)
    (hall : ∀ p ∈ l, ∃ b, is_provider_using_response env fuel p = .ok b)
    (hex : ∃ p ∈ l, is_provider_using_response env fuel p = .ok true) :
    any_provider_using_response env fuel l = .ok true := by
  induction l with
  | nil => obtain ⟨p, hp, _⟩ := hex; exact absurd hp (List.not_mem_nil p)
  | cons q rest ih =>
    simp only [any_provider_using_response]
    obtain ⟨b, hb⟩ := hall q (List.mem_cons_self q rest)
    rw [hb]
    cases b with
    | true => rfl
    | false =>
      obtain ⟨p, hp, hptrue⟩ := hex
      rcases List.mem_cons.mp hp with hpq | hpr
      · subst hpq
        rw [hb] at hptrue
        exact absurd (congrArg id hptrue) (by simp)
      · exact ih (fun x hx => hall x (List.mem_cons_of_mem q hx)) ⟨p, hpr, hptrue⟩

theorem run_providers_nil_deps (env : Env) (fuel : Nat)
    (ext : List (Ty × Value)) (ps : List Provider)
    (instances : List (Ty × Value)) (stats : Stats) :
    run_providers env fuel ext [] ps instances stats = (stats, .ok instances) := by
  induction ps generalizing instances stats with
  | nil => rfl
  | cons p rest ih => simpa [run_providers, provided_for] using ih instances stats

/-! Claim theorems. -/

/-- Claim C1: `is_response_going_to_be_used` returns `False` only when the
callback's direct check is negative and every provider discovered from the
callback's plan has no `Response` subtype in its own plan; it returns `True`
as soon as any positive signal is found — a positive direct check, or (when
every discovered provider's scan completes) some discovered provider whose
plan contains a `Response` subtype. -/
theorem c1_isReachable (env : Env) (fuel : Nat) (r : Req) (s : Spider) :
    (is_callback_using_response env (get_callback r s) = .ok true →
      is_response_going_to_be_used env fuel r s = .ok true) ∧
    (is_response_going_to_be_used env fuel r s = .ok false →
      is_callback_using_response env (get_callback r s) = .ok false ∧
      ∃ ds, discover_callback_providers env fuel (get_callback r s)
          s.poet_providers = .ok ds ∧
        ∀ p ∈ ds, is_provider_using_response env fuel p = .ok false) ∧
    (∀ ds, is_callback_using_response env (get_callback r s) = .ok false →
      discover_callback_providers env fuel (get_callback r s)
        s.poet_providers = .ok ds →
      (∀ p ∈ ds, ∃ b, is_provider_using_response env fuel p = .ok b) →
      (∃ p ∈ ds, is_provider_using_response env fuel p = .ok true) →
      is_response_going_to_be_used env fuel r s = .ok true) := by
  refine ⟨?_, ?_, ?_⟩
  · intro h
    simp [is_response_going_to_be_used, h]
  · intro h
    cases hd : is_callback_using_response env (get_callback r s) with
    | error e => simp [is_response_going_to_be_used, hd] at h
    | ok b =>
      cases b with
      | true => simp [is_response_going_to_be_used, hd] at h
      | false =>
        cases hdisc : discover_callback_providers env fuel (get_callback r s)
            s.poet_providers with
        | error e => simp [is_response_going_to_be_used, hd, hdisc] at h
        | ok ds =>
          simp only [is_response_going_to_be_used, hd, hdisc] at h
          exact ⟨rfl, ds, rfl, (any_provider_false_iff env fuel ds).mp h⟩
  · intro ds hd hdisc hall hex
    simp only [is_response_going_to_be_used, hd, hdisc]
    exact any_provider_true_of_exists env fuel ds hall hex

theorem c1_isReachable_witness :
    is_response_going_to_be_used envA 1 ⟨none⟩ ⟨cbUntyped, []⟩ = .ok true :=
  (c1_isReachable envA 1 ⟨none⟩ ⟨cbUntyped, []⟩).1 rfl

/-- Claim C2 counterexample: the direct check examines only the first
declared parameter.  `cbC2a` declares a parameter of type `Response` yet the
check returns `False`; `cbC2b` declares a parameter with no annotation yet
the check returns `False`; `cbC2c` declares a parameter typed
`DummyResponse` yet the check returns `True`. -/
theorem c2_counterexample :
    ((∃ p ∈ cbC2a.params, p.ann = some ResponseTy) ∧
      is_callback_using_response envA cbC2a = .ok false) ∧
    ((∃ p ∈ cbC2b.params, p.ann = none) ∧
      is_callback_using_response envA cbC2b = .ok false) ∧
    ((∃ p ∈ cbC2c.params, p.ann = some DummyResponseTy) ∧
      is_callback_using_response envA cbC2c = .ok true) :=
  ⟨⟨by decide, rfl⟩, ⟨by decide, rfl⟩, ⟨by decide, rfl⟩⟩

/-- Claim C2 (amended): `is_callback_using_response` returns `False` for
every marked callback; otherwise it decides from the FIRST declared
parameter alone — `True` for a star parameter or an unannotated one, `True`
when the annotation is not a `DummyResponse` subclass (in particular for
`Response` itself), `False` when it is. -/
theorem c2_first_param (env : Env) (cb : Callback) :
    (cb.marker = true → is_callback_using_response env cb = .ok false) ∧
    (∀ p ps, cb.marker = false → cb.params = p :: ps →
      ((p.isStar = true → is_callback_using_response env cb = .ok true) ∧
       (p.isStar = false → p.ann = none →
         is_callback_using_response env cb = .ok true) ∧
       (∀ t, p.isStar = false → p.ann = some t →
         env.issub t DummyResponseTy = false →
         is_callback_using_response env cb = .ok true) ∧
       (∀ t, p.isStar = false → p.ann = some t →
         env.issub t DummyResponseTy = true →
         is_callback_using_response env cb = .ok false))) := by
  refine ⟨?_, ?_⟩
  · intro hm
    simp [is_callback_using_response, hm]
  · intro p ps hm hp
    refine ⟨?_, ?_, ?_, ?_⟩
    · intro hstar
      simp [is_callback_using_response, hm, hp, hstar]
    · intro hstar hann
      simp [is_callback_using_response, hm, hp, hstar, hann]
    · intro t hstar hann hsub
      simp [is_callback_using_response, hm, hp, hstar, hann, hsub]
    · intro t hstar hann hsub
      simp [is_callback_using_response, hm, hp, hstar, hann, hsub]

theorem c2_first_param_witness :
    is_callback_using_response envA ⟨true, [⟨"x", false, none⟩]⟩ = .ok false :=
  (c2_first_param envA ⟨true, [⟨"x", false, none⟩]⟩).1 rfl

/-- Claim C5: `callback_for` validates at materialization time: a class that
is not an `ItemPage` subclass raises `TypeError`; an `ItemPage` subclass
whose `to_item` is still abstract raises the distinct
`NotImplementedError`.  No build is attempted in either case. -/
theorem c5_callback_for_validation (env : Env) (page_cls : Ty) :
    (env.issub page_cls ItemPageTy = false →
      callback_for env page_cls = .error .typeError) ∧
    (env.issub page_cls ItemPageTy = true →
      env.to_item_isabstract page_cls = true →
      callback_for env page_cls = .error .notImplementedError) ∧
    Err.typeError ≠ Err.notImplementedError := by
  refine ⟨?_, ?_, by decide⟩
  · intro h
    simp [callback_for, h]
  · intro h1 h2
    simp [callback_for, h1, h2]

theorem c5_callback_for_validation_witness :
    callback_for envB 99 = .error .typeError :=
  (c5_callback_for_validation envB 99).1 rfl

/-- Claim C6: for a valid `ItemPage` subclass, the callable returned by
`callback_for`, invoked with a built page instance, yields exactly one
element, namely the result of the page's `to_item`. -/
theorem c6_callback_for_yields_item (env : Env) (page_cls : Ty)
    (h1 : env.issub page_cls ItemPageTy = true)
    (h2 : env.to_item_isabstract page_cls = false) :
    ∃ mc, callback_for env page_cls = .ok mc ∧
      ∀ page, (mc.run page).length = 1 ∧
        mc.run page = [env.to_item page_cls page] := by
  refine ⟨⟨true, page_cls, fun page => [env.to_item page_cls page]⟩, ?_, ?_⟩
  · simp [callback_for, h1, h2]
  · intro page
    exact ⟨rfl, rfl⟩

theorem c6_callback_for_yields_item_witness :
    ∃ mc, callback_for envA ItemPageTy = .ok mc ∧
      ∀ page, (mc.run page).length = 1 ∧
        mc.run page = [envA.to_item ItemPageTy page] :=
  c6_callback_for_yields_item envA ItemPageTy rfl rfl

/-- Claim C8: for a target callable declaring no parameters (and a non-empty
provider list, without which planning raises), `build_plan` returns a plan
with no dependencies, and `build_instances` on that plan returns the empty
instance map, invoking no provider and leaving the stats untouched. -/
theorem c8_empty_signature (env : Env) (fuel : Nat) (cb : Callback)
    (providers : List Provider) (ext : List (Ty × Value)) (stats : Stats)
    (hcb : cb.params = []) (hp : providers ≠ []) :
    build_plan env (fuel + 1) cb providers = .ok ⟨[], ⟨[]⟩, none⟩ ∧
    build_instances env (fuel + 1) ⟨[], ⟨[]⟩, none⟩ providers ext stats =
      (stats, .ok []) := by
  constructor
  · cases hq : providers with
    | nil => exact absurd hq hp
    | cons q qs =>
      simp [build_plan, hq, get_provided_classes_from_providers, andi_plan,
        hcb, andi_params, planParams]
  · simp [build_instances, run_providers_nil_deps, build_remaining]

theorem c8_empty_signature_witness :
    build_plan envA 1 ⟨false, []⟩ [provA] = .ok ⟨[], ⟨[]⟩, none⟩ ∧
    build_instances envA 1 ⟨[], ⟨[]⟩, none⟩ [provA] [] stats0 =
      (stats0, .ok []) :=
  c8_empty_signature envA 0 ⟨false, []⟩ [provA] [] stats0 rfl (by simp)

/-- Claim C9 counterexample: a parameterless callable carrying the
`callback_for` marker does NOT fail — the marker check precedes signature
inspection, so `is_callback_using_response` returns `False` for it. -/
theorem c9_counterexample :
    (⟨true, []⟩ : Callback).params = [] ∧
      is_callback_using_response envA ⟨true, []⟩ = .ok false :=
  ⟨rfl, rfl⟩

/-- Claim C9 (amended): for every UNMARKED callable with zero declared
parameters, `is_callback_using_response` raises `StopIteration`, so the
skip-download decision path (`is_response_going_to_be_used`) raises as well
— even though planning and building for such a callback succeed. -/
theorem c9_unmarked_parameterless (env : Env) (fuel : Nat) (cb : Callback)
    (s : Spider) (hm : cb.marker = false) (hp : cb.params = [])
    (hs : s.poet_providers ≠ []) :
    is_callback_using_response env cb = .error .stopIteration ∧
    is_response_going_to_be_used env fuel ⟨some cb⟩ s = .error .stopIteration ∧
    build_plan env (fuel + 1) cb s.poet_providers = .ok ⟨[], ⟨[]⟩, none⟩ ∧
    (∀ ext stats, build_instances env (fuel + 1) ⟨[], ⟨[]⟩, none⟩
        s.poet_providers ext stats = (stats, .ok [])) := by
  have hd : is_callback_using_response env cb = .error .stopIteration := by
    simp [is_callback_using_response, hm, hp]
  refine ⟨hd, ?_, ?_, ?_⟩
  · simp [is_response_going_to_be_used, get_callback, hd]
  · cases hq : s.poet_providers with
    | nil => exact absurd hq hs
    | cons q qs =>
      simp [build_plan, hq, get_provided_classes_from_providers, andi_plan,
        hp, andi_params, planParams]
  · intro ext stats
    simp [build_instances, run_providers_nil_deps, build_remaining]

theorem c9_unmarked_parameterless_witness :
    is_callback_using_response envA ⟨false, []⟩ = .error .stopIteration ∧
    is_response_going_to_be_used envA 0 ⟨some ⟨false, []⟩⟩ ⟨cbUntyped, [provA]⟩ =
      .error .stopIteration ∧
    build_plan envA 1 ⟨false, []⟩ [provA] = .ok ⟨[], ⟨[]⟩, none⟩ ∧
    (∀ ext stats, build_instances envA 1 ⟨[], ⟨[]⟩, none⟩ [provA] ext stats =
      (stats, .ok [])) :=
  c9_unmarked_parameterless envA 0 ⟨false, []⟩ ⟨cbUntyped, [provA]⟩ rfl rfl (by simp)

/-- Claim C10 counterexample: `get_provided_classes_from_providers` does fail
on the empty provider list, but `build_instances` never calls it — with zero
providers it succeeds and returns the empty instance map. -/
theorem c10_counterexample :
    get_provided_classes_from_providers ([] : List Provider) =
      .error .setUnionEmpty ∧
    build_instances envA 1 ⟨[], ⟨[]⟩, none⟩ [] [] stats0 = (stats0, .ok []) :=
  ⟨rfl, rfl⟩

/-- Claim C10 (amended): `get_provided_classes_from_providers` raises on the
empty provider list, so `build_plan` and `discover_callback_providers`
presuppose at least one registered provider; `build_instances` does not call
it and succeeds with an empty provider list. -/
theorem c10_empty_provider_list (env : Env) (fuel : Nat) (cb : Callback)
    (plan : Plan) (ext : List (Ty × Value)) (stats : Stats)
    (hplan : plan.entries = []) :
    get_provided_classes_from_providers [] = .error .setUnionEmpty ∧
    build_plan env fuel cb [] = .error .setUnionEmpty ∧
    discover_callback_providers env fuel cb [] = .error .setUnionEmpty ∧
    build_instances env fuel plan [] ext stats = (stats, .ok []) := by
  refine ⟨rfl, rfl, rfl, ?_⟩
  simp [build_instances, run_providers, hplan, build_remaining]

theorem c10_empty_provider_list_witness :
    get_provided_classes_from_providers [] = .error .setUnionEmpty ∧
    build_plan envA 1 cbUntyped [] = .error .setUnionEmpty ∧
    discover_callback_providers envA 1 cbUntyped [] = .error .setUnionEmpty ∧
    build_instances envA 1 ⟨[], ⟨[]⟩, none⟩ [] [] stats0 = (stats0, .ok []) :=
  c10_empty_provider_list envA 1 cbUntyped ⟨[], ⟨[]⟩, none⟩ [] stats0 rfl

/-- Claim C4 counterexample: two providers claiming capability class 10
register without any error, and the build silently uses the first one — its
instance 111 wins, its counter "A" is bumped, and the second provider is
never invoked (counter "B" stays 0). -/
theorem c4_counterexample :
    (∃ pcs, get_provided_classes_from_providers [provDup1, provDup2] = .ok pcs) ∧
    (build_instances envB 3 planA [provDup1, provDup2] [] stats0).2 =
      .ok [(10, 111)] ∧
    (build_instances envB 3 planA [provDup1, provDup2] [] stats0).1 "A" = 1 ∧
    (build_instances envB 3 planA [provDup1, provDup2] [] stats0).1 "B" = 0 :=
  ⟨⟨_, rfl⟩, rfl, by decide, by decide⟩

/-- Claim C4 (amended): duplicate production is not an error — registration
(the union of `provided_classes`) succeeds, and during a build the
first-listed provider that produces the contested class is invoked while
later providers are skipped for it (first-registered wins), provided the
first invocation actually records an instance of that class. -/
theorem c4_first_provider_wins (env : Env) (fuel : Nat) (C : Ty)
    (spec fk : KwargsSpec) (rc : Option Ty) (p1 p2 : Provider)
    (ext : List (Ty × Value)) (stats stats' : Stats)
    (kw : List (String × Value)) (results : List (Ty × Value))
    (h1 : C ∈ p1.provided_classes) (h2 : C ∈ p2.provided_classes)
    (hbp : build_provider env fuel p1 ext = .ok ⟨p1, kw⟩)
    (hcall : p1.call kw stats [C] = (stats', .ok results))
    (hres : C ∈ results.map Prod.fst) :
    (∃ pcs, get_provided_classes_from_providers [p1, p2] = .ok pcs) ∧
    build_instances env fuel ⟨[(C, spec)], fk, rc⟩ [p1, p2] ext stats =
      build_instances env fuel ⟨[(C, spec)], fk, rc⟩ [p1] ext stats := by
  refine ⟨⟨_, rfl⟩, ?_⟩
  have hpf1 : provided_for p1 (dkeys []) [C] = [C] := by
    simp [provided_for, dkeys, h1]
  have hpf2 : provided_for p2 (dkeys (dictUpdate [] results)) [C] = [] := by
    simp [provided_for, dkeys, dictUpdate, removeKeys, hres]
  unfold build_instances
  simp only [run_providers, List.map_cons, List.map_nil, hpf1, hbp, hcall,
    hpf2]

theorem c4_first_provider_wins_witness :
    (∃ pcs, get_provided_classes_from_providers [provDup1, provDup2] = .ok pcs) ∧
    build_instances envB 3 ⟨[(10, ⟨[]⟩)], ⟨[]⟩, none⟩ [provDup1, provDup2]
        [] stats0 =
      build_instances envB 3 ⟨[(10, ⟨[]⟩)], ⟨[]⟩, none⟩ [provDup1] [] stats0 :=
  c4_first_provider_wins envB 3 10 ⟨[]⟩ ⟨[]⟩ none provDup1 provDup2 []
    stats0 (statsInc stats0 "A") [] [(10, 111)] (by decide) (by decide) rfl
    rfl (by decide)

/-- Claim C7 counterexample: provider class 21 (provider `provB`) needs an
instance of capability class 10 at construction time; class 10 is built
earlier in the same build by `provA`, yet the build fails with
`NonProvidableError` because `build_provider` consults only the external
dependencies — while the spec-modelled construction from "already-built
dependency instances plus external values" succeeds. -/
theorem c7_counterexample :
    build_provider envB 5 provB extReq = .error .nonProvidable ∧
    (build_instances envB 5 planAB [provA, provB] extReq stats0).2 =
      .error .nonProvidable ∧
    build_provider_spec envB 5 provB extReq [(10, 100)] =
      .ok ⟨provB, [("a", 100)]⟩ :=
  ⟨rfl, rfl, rfl⟩

/-- Claim C7 (amended): every provider that must run is constructed from the
externally supplied values only (the instance map is not made available to
provider construction), and the result(s) of its one invocation are recorded
into the instance map — one invocation may populate several capability-type
slots at once. -/
theorem c7_external_only_construction (env : Env) (fuel : Nat) (plan : Plan)
    (p : Provider) (ext : List (Ty × Value)) (stats stats' : Stats)
    (kw : List (String × Value)) (results finalMap : List (Ty × Value))
    (c : Ty) (cs : List Ty)
    (hpf : provided_for p (dkeys []) (plan.entries.map Prod.fst) = c :: cs)
    (hbp : build_provider env fuel p ext = .ok ⟨p, kw⟩)
    (hcall : p.call kw stats (c :: cs) = (stats', .ok results))
    (hrem : build_remaining env plan.entries results = .ok finalMap) :
    build_instances env fuel plan [p] ext stats = (stats', .ok finalMap) := by
  unfold build_instances
  simp only [run_providers, hpf, hbp, hcall]
  simp [dictUpdate, removeKeys, run_providers, hrem]

theorem c7_external_only_construction_witness :
    build_instances envB 4 planBatch [provBatch] [] stats0 =
      (stats0, .ok [(30, 7), (31, 8)]) :=
  c7_external_only_construction envB 4 planBatch provBatch [] stats0 stats0
    [] [(30, 7), (31, 8)] [(30, 7), (31, 8)] 30 [31] rfl rfl rfl rfl

/-- Claim C3 (code bug): the claimed accounting is implemented in the
method body — entered through its own zero-argument signature,
`Provider.__call__` bumps `total` once at invocation start, bumps `error`
once and re-raises the original exception on failure, and bumps `success`
once returning the instance on success — but `build_instances` invokes the
provider instance with the `provided_classes` positional argument that
`__call__(self)` does not accept, so for every fetch outcome the composed
build aborts with that `TypeError` while every counter is left untouched:
the claim's composed statement does not hold of the program. -/
theorem c3_provider_failure_counters (env : Env) (k : Nat) (pt : String)
    (fetch : Except Nat Value) (mkInstance : Value → Value) (pcls C : Ty)
    (spec fk : KwargsSpec) (rc : Option Ty) (rv sv : Value) (stats : Stats)
    (P : Provider) (ext : List (Ty × Value)) (plan : Plan)
    (hinit : env.init_params pcls =
      [("request", some RequestTy), ("stats", some StatsCollectorTy)])
    (hP : P = ⟨pcls, [C], autoextract_call pt fetch mkInstance⟩)
    (hext : ext = [(RequestTy, rv), (StatsCollectorTy, sv)])
    (hplan : plan = ⟨[(C, spec)], fk, rc⟩) :
    build_instances env (k + 3) plan [P] ext stats =
      (stats, .error .typeErrorCall) ∧
    (∀ e, fetch = .error e →
      (autoextract_dunder_call pt fetch mkInstance stats).2 = .error (.exn e) ∧
      (autoextract_dunder_call pt fetch mkInstance stats).1 (statKey pt "total") =
        stats (statKey pt "total") + 1 ∧
      (autoextract_dunder_call pt fetch mkInstance stats).1 (statKey pt "error") =
        stats (statKey pt "error") + 1 ∧
      (autoextract_dunder_call pt fetch mkInstance stats).1 (statKey pt "success") =
        stats (statKey pt "success")) ∧
    (∀ v, fetch = .ok v →
      (autoextract_dunder_call pt fetch mkInstance stats).2 = .ok (mkInstance v) ∧
      (autoextract_dunder_call pt fetch mkInstance stats).1 (statKey pt "total") =
        stats (statKey pt "total") + 1 ∧
      (autoextract_dunder_call pt fetch mkInstance stats).1 (statKey pt "success") =
        stats (statKey pt "success") + 1 ∧
      (autoextract_dunder_call pt fetch mkInstance stats).1 (statKey pt "error") =
        stats (statKey pt "error")) := by
  subst hP hext hplan
  have hplanned : andi_plan env (dkeys [(RequestTy, rv), (StatsCollectorTy, sv)])
      (k + 3) true (env.init_params pcls) (some pcls) =
      .ok ⟨[(RequestTy, ⟨[]⟩), (StatsCollectorTy, ⟨[]⟩)],
        ⟨[("request", RequestTy), ("stats", StatsCollectorTy)]⟩, some pcls⟩ := by
    rw [hinit]
    rfl
  have hbp : build_provider env (k + 3)
      ⟨pcls, [C], autoextract_call pt fetch mkInstance⟩
      [(RequestTy, rv), (StatsCollectorTy, sv)] =
      .ok ⟨⟨pcls, [C], autoextract_call pt fetch mkInstance⟩,
        [("request", rv), ("stats", sv)]⟩ := by
    unfold build_provider
    rw [show (⟨pcls, [C], autoextract_call pt fetch mkInstance⟩ : Provider).cls
          = pcls from rfl] at *
    rw [hplanned]
    rfl
  have hpf : provided_for ⟨pcls, [C], autoextract_call pt fetch mkInstance⟩
      (dkeys []) [C] = [C] := by
    simp [provided_for, dkeys]
  have hne_te : statKey pt "total" ≠ statKey pt "error" :=
    statKey_ne pt "total" "error" (by decide)
  have hne_ts : statKey pt "total" ≠ statKey pt "success" :=
    statKey_ne pt "total" "success" (by decide)
  have hne_es : statKey pt "error" ≠ statKey pt "success" :=
    statKey_ne pt "error" "success" (by decide)
  refine ⟨?_, ?_, ?_⟩
  · unfold build_instances
    simp only [run_providers, List.map_cons, List.map_nil, hpf, hbp,
      autoextract_call]
  · intro e he
    subst he
    refine ⟨rfl, ?_, ?_, ?_⟩ <;>
      simp [autoextract_dunder_call, statsInc, hne_te, hne_ts, hne_es,
        hne_te.symm, hne_ts.symm, hne_es.symm]
  · intro v hv
    subst hv
    refine ⟨rfl, ?_, ?_, ?_⟩ <;>
      simp [autoextract_dunder_call, statsInc, hne_te, hne_ts, hne_es,
        hne_te.symm, hne_ts.symm, hne_es.symm]

theorem c3_provider_failure_counters_witness :
    build_instances envC 3 ⟨[(10, ⟨[]⟩)], ⟨[]⟩, none⟩
        [⟨50, [10], autoextract_call "product" (.error 77) id⟩]
        [(RequestTy, 0), (StatsCollectorTy, 1)] stats0 =
      (stats0, .error .typeErrorCall) ∧
    (autoextract_dunder_call "product" (.error 77) id stats0).2 =
      .error (.exn 77) ∧
    (autoextract_dunder_call "product" (.error 77) id stats0).1
      (statKey "product" "total") = stats0 (statKey "product" "total") + 1 ∧
    (autoextract_dunder_call "product" (.error 77) id stats0).1
      (statKey "product" "error") = stats0 (statKey "product" "error") + 1 ∧
    (autoextract_dunder_call "product" (.error 77) id stats0).1
      (statKey "product" "success") = stats0 (statKey "product" "success") :=
  ⟨(c3_provider_failure_counters envC 0 "product" (.error 77) id 50 10
      ⟨[]⟩ ⟨[]⟩ none 0 1 stats0
      ⟨50, [10], autoextract_call "product" (.error 77) id⟩
      [(RequestTy, 0), (StatsCollectorTy, 1)] ⟨[(10, ⟨[]⟩)], ⟨[]⟩, none⟩
      rfl rfl rfl rfl).1,
    (c3_provider_failure_counters envC 0 "product" (.error 77) id 50 10
      ⟨[]⟩ ⟨[]⟩ none 0 1 stats0
      ⟨50, [10], autoextract_call "product" (.error 77) id⟩
      [(RequestTy, 0), (StatsCollectorTy, 1)] ⟨[(10, ⟨[]⟩)], ⟨[]⟩, none⟩
      rfl rfl rfl rfl).2.1 77 rfl⟩

end SPoet
